import Mathlib

/-!
Shallow embedding of the interrupt-driven debounced-button pipeline of the
STM32F4-CMSIS-Projects repository (project `03-Button_EXTI`,
`Drivers/BSP/stm32f407g_disc1.c`), together with the small pieces of hardware
semantics (EXTI edge detector, TIM7 basic-timer counting, Cortex-M NVIC
priority encoding) needed to give the register writes meaning.

Registers are modelled as natural numbers holding their 32-bit word value;
the C bitwise operations are translated literally (`|=` as `|||`, `&= ~m` as
`&&& compl32 m`).  The two interrupt handlers additionally emit a trace of
the observable actions they perform, in the order of the source statements,
so that ordering requirements can be stated.
-/

/-- Complement of a 32-bit mask, i.e. the value of `~m` computed on a
`uint32_t` when `m` fits in 32 bits. -/
def compl32 (m : Nat) : Nat := 0xFFFFFFFF ^^^ m

/-! Constants from `stm32f407g_disc1.h` and the CMSIS device header
`stm32f407xx.h`. -/

/-- BUTTON_DEBOUNCE_MS, `stm32f407g_disc1.c` line 37. -/
def BUTTON_DEBOUNCE_MS : Nat := 20
/-- Total number of LEDs on the board (`LEDn`). -/
def LEDn : Nat := 4
/-- User-button pin number (PA0). -/
def BUTTON_PIN : Nat := 0
/-- TIM_CR1_CEN: counter-enable bit (bit 0 of TIMx->CR1). -/
def TIM_CR1_CEN : Nat := 1
/-- TIM_CR1_OPM: one-pulse-mode bit (bit 3 of TIMx->CR1). -/
def TIM_CR1_OPM : Nat := 8
/-- TIM_DIER_UIE: update-interrupt-enable bit (bit 0 of TIMx->DIER). -/
def TIM_DIER_UIE : Nat := 1
/-- TIM_SR_UIF: update-interrupt flag (bit 0 of TIMx->SR). -/
def TIM_SR_UIF : Nat := 1
/-- RCC_AHB1ENR_GPIOAEN: GPIOA clock-enable bit (bit 0). -/
def RCC_AHB1ENR_GPIOAEN : Nat := 1
/-- RCC_APB1ENR_TIM7EN: TIM7 clock-enable bit (bit 5). -/
def RCC_APB1ENR_TIM7EN : Nat := 32
/-- RCC_APB2ENR_SYSCFGEN: SYSCFG clock-enable bit (bit 14). -/
def RCC_APB2ENR_SYSCFGEN : Nat := 16384
/-- SYSCFG_EXTICR1_EXTI0: the 4-bit EXTI0 source-selection field. -/
def SYSCFG_EXTICR1_EXTI0 : Nat := 15
/-- SYSCFG_EXTICR1_EXTI0_PA: port A as source for EXTI0 (value 0). -/
def SYSCFG_EXTICR1_EXTI0_PA : Nat := 0

/-- Lookup table with the GPIO pin numbers for each LED
(`LED_PIN` in `stm32f407g_disc1.c`, lines 46-51): green 12, orange 13,
red 14, blue 15 on GPIOD. -/
def LED_PIN : List Nat := [12, 13, 14, 15]

/-- The machine state touched by the modelled BSP code: one field per
hardware register (or register field) that the source reads or writes.
`SystemCoreClock` is the CMSIS global clock-frequency variable;
`SCB_AIRCR_PRIGROUP` is the 3-bit PRIGROUP field of SCB->AIRCR;
the `NVIC_*` fields model the two NVIC interrupt-priority registers and
enable bits that the source configures (for EXTI0_IRQn and TIM7_IRQn). -/
structure BoardState where
  SystemCoreClock : Nat
  RCC_AHB1ENR : Nat
  RCC_APB1ENR : Nat
  RCC_APB2ENR : Nat
  GPIOA_MODER : Nat
  GPIOA_PUPDR : Nat
  GPIOA_OSPEEDR : Nat
  GPIOA_IDR : Nat
  GPIOD_ODR : Nat
  SYSCFG_EXTICR0 : Nat
  EXTI_IMR : Nat
  EXTI_RTSR : Nat
  EXTI_FTSR : Nat
  EXTI_PR : Nat
  TIM7_PSC : Nat
  TIM7_ARR : Nat
  TIM7_CNT : Nat
  TIM7_CR1 : Nat
  TIM7_DIER : Nat
  TIM7_SR : Nat
  SCB_AIRCR_PRIGROUP : Nat
  NVIC_PRIO_EXTI0 : Nat
  NVIC_PRIO_TIM7 : Nat
  NVIC_EN_EXTI0 : Bool
  NVIC_EN_TIM7 : Bool
deriving DecidableEq

/-- Effect on GPIOx->ODR of writing `v` to GPIOx->BSRR: the low half-word
sets ODR bits, the high half-word resets them (set wins on conflict,
RM0090). -/
def bsrrWrite (odr v : Nat) : Nat :=
  (odr &&& compl32 ((v >>> 16) &&& 0xFFFF)) ||| (v &&& 0xFFFF)

/-- BSP_LED_On (`stm32f407g_disc1.c` lines 90-96): guarded by `led < LEDn`,
writes the set bit of the LED pin to GPIOD->BSRR. -/
def BSP_LED_On (led : Nat) (s : BoardState) : BoardState :=
  if led < LEDn then
    { s with GPIOD_ODR := bsrrWrite s.GPIOD_ODR (1 <<< LED_PIN.getD led 0) }
  else s

/-- BSP_LED_Off (lines 103-109): guarded by `led < LEDn`, writes the reset
bit (pin + 16) to GPIOD->BSRR. -/
def BSP_LED_Off (led : Nat) (s : BoardState) : BoardState :=
  if led < LEDn then
    { s with GPIOD_ODR := bsrrWrite s.GPIOD_ODR (1 <<< (LED_PIN.getD led 0 + 16)) }
  else s

/-- BSP_LED_Toggle (lines 116-122): guarded by `led < LEDn`, XORs the ODR
bit of the LED pin. -/
def BSP_LED_Toggle (led : Nat) (s : BoardState) : BoardState :=
  if led < LEDn then
    { s with GPIOD_ODR := s.GPIOD_ODR ^^^ (1 <<< LED_PIN.getD led 0) }
  else s

/-- BSP_Button_Read (lines 175-178): 1 if the IDR bit of the button pin is
set, else 0. -/
def BSP_Button_Read (s : BoardState) : Nat :=
  if s.GPIOA_IDR &&& (1 <<< BUTTON_PIN) ≠ 0 then 1 else 0

/-- BSP_Button_GPIO_Init (lines 186-194): pin as input (MODER bits cleared),
pull-down enabled (PUPDR field set to 2), low speed. -/
def BSP_Button_GPIO_Init (s : BoardState) : BoardState :=
  { s with
    GPIOA_MODER := s.GPIOA_MODER &&& compl32 (3 <<< (BUTTON_PIN * 2)),
    GPIOA_PUPDR := (s.GPIOA_PUPDR &&& compl32 (3 <<< (BUTTON_PIN * 2))) |||
      (2 <<< (BUTTON_PIN * 2)),
    GPIOA_OSPEEDR := s.GPIOA_OSPEEDR &&& compl32 (3 <<< (BUTTON_PIN * 2)) }

/-- BSP_Button_EXTI_Init (lines 205-218): SYSCFG clock on, PA0 routed to
EXTI0, interrupt unmasked, rising trigger on, falling trigger off, pending
flag cleared.  EXTI->PR is write-1-to-clear (rc_w1, RM0090), so the write
`EXTI->PR = (1 << BUTTON_PIN)` clears that pending bit. -/
def BSP_Button_EXTI_Init (s : BoardState) : BoardState :=
  { s with
    RCC_APB2ENR := s.RCC_APB2ENR ||| RCC_APB2ENR_SYSCFGEN,
    SYSCFG_EXTICR0 := (s.SYSCFG_EXTICR0 &&& compl32 SYSCFG_EXTICR1_EXTI0) |||
      SYSCFG_EXTICR1_EXTI0_PA,
    EXTI_IMR := s.EXTI_IMR ||| (1 <<< BUTTON_PIN),
    EXTI_RTSR := s.EXTI_RTSR ||| (1 <<< BUTTON_PIN),
    EXTI_FTSR := s.EXTI_FTSR &&& compl32 (1 <<< BUTTON_PIN),
    EXTI_PR := s.EXTI_PR &&& compl32 (1 <<< BUTTON_PIN) }

/-- __NVIC_PRIO_BITS for the STM32F4 (CMSIS device header): 4 implemented
priority bits. -/
def NVIC_PRIO_BITS : Nat := 4

/-- Number of sub-priority bits for a given priority grouping, as computed
inside CMSIS NVIC_EncodePriority. -/
def NVIC_SubPriorityBits (PG : Nat) : Nat :=
  if (PG &&& 7) + NVIC_PRIO_BITS < 7 then 0 else (PG &&& 7) + NVIC_PRIO_BITS - 7

/-- Number of preempt-priority bits for a given priority grouping, as
computed inside CMSIS NVIC_EncodePriority. -/
def NVIC_PreemptPriorityBits (PG : Nat) : Nat :=
  if NVIC_PRIO_BITS < 7 - (PG &&& 7) then NVIC_PRIO_BITS else 7 - (PG &&& 7)

/-- CMSIS NVIC_EncodePriority (core_cm4.h): packs preempt priority and
sub-priority into one encoded priority value according to the grouping. -/
def NVIC_EncodePriority (PG pre sub : Nat) : Nat :=
  ((pre &&& ((1 <<< NVIC_PreemptPriorityBits PG) - 1)) <<< NVIC_SubPriorityBits PG) |||
  (sub &&& ((1 <<< NVIC_SubPriorityBits PG) - 1))

/-- CMSIS NVIC_GetPriorityGrouping: reads the PRIGROUP field of SCB->AIRCR. -/
def NVIC_GetPriorityGrouping (s : BoardState) : Nat := s.SCB_AIRCR_PRIGROUP

/-- Group (preemption) part of an encoded priority value under grouping
`PG`: the encoded value with its sub-priority bits discarded. -/
def groupPriorityLevel (PG p : Nat) : Nat := p >>> NVIC_SubPriorityBits PG

/-- Cortex-M preemption rule (ARMv7-M architecture; spec section 5): an
exception with encoded priority `a` can preempt an in-progress exception
with encoded priority `b` iff the group priority of `a` is numerically
strictly lower (lower value = higher urgency). -/
def canPreempt (PG a b : Nat) : Prop :=
  groupPriorityLevel PG a < groupPriorityLevel PG b

instance (PG a b : Nat) : Decidable (canPreempt PG a b) :=
  inferInstanceAs (Decidable (groupPriorityLevel PG a < groupPriorityLevel PG b))

/-- BSP_Button_NVIC_Init (lines 231-236): EXTI0_IRQn priority set to
preempt 0x0E, sub 0, under the current grouping; IRQ enabled. -/
def BSP_Button_NVIC_Init (s : BoardState) : BoardState :=
  { s with
    NVIC_PRIO_EXTI0 := NVIC_EncodePriority (NVIC_GetPriorityGrouping s) 14 0,
    NVIC_EN_EXTI0 := true }

/-- BSP_Button_DebounceTimer_Init (lines 249-261): TIM7 clock on,
PSC = SystemCoreClock/1000 - 1, ARR = BUTTON_DEBOUNCE_MS, one-pulse mode,
update interrupt enabled; TIM7_IRQn priority set to preempt 0x0F, sub 0;
IRQ enabled. -/
def BSP_Button_DebounceTimer_Init (s : BoardState) : BoardState :=
  { s with
    RCC_APB1ENR := s.RCC_APB1ENR ||| RCC_APB1ENR_TIM7EN,
    TIM7_PSC := s.SystemCoreClock / 1000 - 1,
    TIM7_ARR := BUTTON_DEBOUNCE_MS,
    TIM7_CR1 := s.TIM7_CR1 ||| TIM_CR1_OPM,
    TIM7_DIER := s.TIM7_DIER ||| TIM_DIER_UIE,
    NVIC_PRIO_TIM7 := NVIC_EncodePriority (NVIC_GetPriorityGrouping s) 15 0,
    NVIC_EN_TIM7 := true }

/-- The complete EXTI-mode configuration path of BSP_Button_Init
(lines 152-169, Mode = BUTTON_MODE_EXTI): button GPIO clock enable and pin
setup, then EXTI, NVIC and debounce-timer initialization. -/
def buttonInitEXTI (s : BoardState) : BoardState :=
  BSP_Button_DebounceTimer_Init (BSP_Button_NVIC_Init (BSP_Button_EXTI_Init
    (BSP_Button_GPIO_Init { s with RCC_AHB1ENR := s.RCC_AHB1ENR ||| RCC_AHB1ENR_GPIOAEN })))

/-- BSP_Button_Init (lines 152-169).  Modes are the ButtonMode_TypeDef
values: 0 = BUTTON_MODE_GPIO, 1 = BUTTON_MODE_EXTI.  Any other mode hits
`assert(!"Invalid Button Mode!")`, which halts the program: modelled as
`none`. -/
def BSP_Button_Init (Mode : Nat) (s : BoardState) : Option BoardState :=
  match Mode with
  | 0 => some (BSP_Button_GPIO_Init
      { s with RCC_AHB1ENR := s.RCC_AHB1ENR ||| RCC_AHB1ENR_GPIOAEN })
  | 1 => some (buttonInitEXTI s)
  | _ => none

/-- Observable actions of the two interrupt handlers, one constructor per
side-effecting source statement, emitted in program order. -/
inductive BspAction where
  | ackEXTIPending
  | maskEXTI
  | unmaskEXTI
  | resetTIM7Count
  | startTIM7
  | clearTIM7UIF
  | sampleButton (v : Nat)
  | invokeCallback
deriving DecidableEq

/-- BSP_Button_Callback (lines 272-275), the weak default implementation:
toggles the orange LED (index 1).  An application may override it; the
handler theorems below track the invocation itself through the
`invokeCallback` trace action, independently of what the callback does. -/
def BSP_Button_Callback (s : BoardState) : BoardState :=
  BSP_LED_Toggle 1 s

/-- EXTI0_IRQHandler (lines 281-290).  If the EXTI0 pending bit is set:
clear it (write-1-to-clear), mask the line, reset TIM7->CNT, start TIM7.
Returns the new state and the trace of actions in source order. -/
def EXTI0_IRQHandler (s : BoardState) : BoardState × List BspAction :=
  if s.EXTI_PR &&& (1 <<< BUTTON_PIN) ≠ 0 then
    let s1 := { s with EXTI_PR := s.EXTI_PR &&& compl32 (1 <<< BUTTON_PIN) }
    let s2 := { s1 with EXTI_IMR := s1.EXTI_IMR &&& compl32 (1 <<< BUTTON_PIN) }
    let s3 := { s2 with TIM7_CNT := 0 }
    let s4 := { s3 with TIM7_CR1 := s3.TIM7_CR1 ||| TIM_CR1_CEN }
    (s4, [.ackEXTIPending, .maskEXTI, .resetTIM7Count, .startTIM7])
  else (s, [])

/-- TIM7_IRQHandler (lines 296-307).  If the update flag is set: clear it,
unmask the EXTI line, sample the button, and invoke the callback iff the
sample is nonzero.  Returns the new state and the trace of actions in
source order. -/
def TIM7_IRQHandler (s : BoardState) : BoardState × List BspAction :=
  if s.TIM7_SR &&& TIM_SR_UIF ≠ 0 then
    let s1 := { s with TIM7_SR := s.TIM7_SR &&& compl32 TIM_SR_UIF }
    let s2 := { s1 with EXTI_IMR := s1.EXTI_IMR ||| (1 <<< BUTTON_PIN) }
    let v := BSP_Button_Read s2
    if v ≠ 0 then
      (BSP_Button_Callback s2,
        [.clearTIM7UIF, .unmaskEXTI, .sampleButton v, .invokeCallback])
    else
      (s2, [.clearTIM7UIF, .unmaskEXTI, .sampleButton v])
  else (s, [])

/-- Modelled from the spec: the EXTI edge-detector hardware, which is not
part of the repository sources.  A rising edge on the button line sets the
pending flag whenever the rising-edge trigger is enabled; the mask register
gates only delivery of the request to the NVIC, not the pending flag itself
(RM0090; presupposed by spec section 4.2, whose acknowledge contract exists
precisely because a stale pending indication can be present while the line
is masked). -/
def extiRisingEdge (s : BoardState) : BoardState :=
  if s.EXTI_RTSR &&& (1 <<< BUTTON_PIN) ≠ 0 then
    { s with EXTI_PR := s.EXTI_PR ||| (1 <<< BUTTON_PIN) }
  else s

/-- Modelled from the spec: one tick of TIM7's prescaled counter clock
(the hardware timer itself is not repository source; semantics per the
STM32F4 reference manual, RM0090, basic timers).  When the counter is
enabled it increments each tick; the tick on which it would pass ARR wraps
it to 0, sets the update flag UIF, and — in one-pulse mode — clears the
enable bit.  The update event therefore occurs ARR + 1 ticks after starting
from CNT = 0. -/
def tim7Tick (s : BoardState) : BoardState :=
  if s.TIM7_CR1 &&& TIM_CR1_CEN ≠ 0 then
    if s.TIM7_CNT = s.TIM7_ARR then
      { s with
        TIM7_CNT := 0,
        TIM7_SR := s.TIM7_SR ||| TIM_SR_UIF,
        TIM7_CR1 := if s.TIM7_CR1 &&& TIM_CR1_OPM ≠ 0 then
            s.TIM7_CR1 &&& compl32 TIM_CR1_CEN
          else s.TIM7_CR1 }
    else { s with TIM7_CNT := s.TIM7_CNT + 1 }
  else s

/-- System_Init, modelled from `src/01-LED_Blinky_SysTick/Core/Src/system.c`
(project 03 declares the identical function in its `system.h` but its
`system.c` is not among the sources): sets the NVIC priority grouping to
NVIC_PRIORITYGROUP_4 = 0x3 (4 preempt bits, 0 sub-priority bits).  Its SWD
and clock-tree configuration touches no register modelled here (clock-tree
arithmetic is an explicit spec non-goal). -/
def System_Init (s : BoardState) : BoardState :=
  { s with SCB_AIRCR_PRIGROUP := 3 }

/-- A power-on state: registers at their reset value 0, button released.
`SystemCoreClock` is 168000000, the value the CMSIS variable holds on this
board once System_Init has configured the 168 MHz PLL clock. -/
def resetState : BoardState :=
  { SystemCoreClock := 168000000
    RCC_AHB1ENR := 0, RCC_APB1ENR := 0, RCC_APB2ENR := 0
    GPIOA_MODER := 0, GPIOA_PUPDR := 0, GPIOA_OSPEEDR := 0, GPIOA_IDR := 0
    GPIOD_ODR := 0
    SYSCFG_EXTICR0 := 0
    EXTI_IMR := 0, EXTI_RTSR := 0, EXTI_FTSR := 0, EXTI_PR := 0
    TIM7_PSC := 0, TIM7_ARR := 0, TIM7_CNT := 0, TIM7_CR1 := 0
    TIM7_DIER := 0, TIM7_SR := 0
    SCB_AIRCR_PRIGROUP := 0
    NVIC_PRIO_EXTI0 := 0, NVIC_PRIO_TIM7 := 0
    NVIC_EN_EXTI0 := false, NVIC_EN_TIM7 := false }

/-- ARMED startup state of the board: System_Init followed by the EXTI-mode
button configuration, from power-on reset. -/
def armedStart : BoardState := buttonInitEXTI (System_Init resetState)

/-- DEBOUNCING state reached from `armedStart` by one rising edge accepted
by EXTI0_IRQHandler: line masked, TIM7 running from 0. -/
def debouncingStart : BoardState := (EXTI0_IRQHandler (extiRisingEdge armedStart)).1

/-- State at timer expiration after a second rising edge (contact bounce)
occurred during the masked debounce window: the update flag is set and the
EXTI pending flag is stale-set. -/
def staleExpired : BoardState :=
  tim7Tick^[BUTTON_DEBOUNCE_MS + 1] (extiRisingEdge debouncingStart)

/-- A state with the TIM7 update flag set and the button electrically
pressed, as seen on entry to TIM7_IRQHandler for a confirmed press. -/
def uifPressed : BoardState := { resetState with TIM7_SR := 1, GPIOA_IDR := 1 }

/-- A state with the EXTI0 pending flag set and the line unmasked, as seen
on entry to EXTI0_IRQHandler for an accepted edge. -/
def pendingArmed : BoardState := { resetState with EXTI_PR := 1, EXTI_IMR := 1 }

/-- A state with both the TIM7 update flag and the EXTI0 pending flag set:
a timer expiration racing a stale pending indication. -/
def uifStalePending : BoardState := { resetState with TIM7_SR := 1, EXTI_PR := 1 }

/-! Generic bit-algebra helper lemmas used to reason about the register
updates. -/

/-- Setting the same bits twice is the same as setting them once. -/
theorem or_or_self (x c : Nat) : x ||| c ||| c = x ||| c :=
  Nat.eq_of_testBit_eq fun i => by
    simp only [Nat.testBit_lor]
    cases x.testBit i <;> cases c.testBit i <;> rfl

/-- Masking with the same mask twice is the same as masking once. -/
theorem and_and_self (x c : Nat) : x &&& c &&& c = x &&& c :=
  Nat.eq_of_testBit_eq fun i => by
    simp only [Nat.testBit_land]
    cases x.testBit i <;> cases c.testBit i <;> rfl

/-- A clear-bits-then-set-bits register update is idempotent. -/
theorem clear_set_idem (x m v : Nat) :
    (((x &&& m) ||| v) &&& m) ||| v = (x &&& m) ||| v :=
  Nat.eq_of_testBit_eq fun i => by
    simp only [Nat.testBit_lor, Nat.testBit_land]
    cases x.testBit i <;> cases m.testBit i <;> cases v.testBit i <;> rfl

/-- After ORing in `c`, masking with `c` reads back exactly `c`. -/
theorem or_and_absorb (x c : Nat) : (x ||| c) &&& c = c :=
  Nat.eq_of_testBit_eq fun i => by
    simp only [Nat.testBit_lor, Nat.testBit_land]
    cases x.testBit i <;> cases c.testBit i <;> rfl

/-- ORing in bits disjoint from the mask `c` does not change the masked
read. -/
theorem or_and_eq_of_and_eq_zero (x a c : Nat) (h : a &&& c = 0) :
    (x ||| a) &&& c = x &&& c :=
  Nat.eq_of_testBit_eq fun i => by
    have ha : (a &&& c).testBit i = false := by rw [h]; simp
    simp only [Nat.testBit_land] at ha
    simp only [Nat.testBit_lor, Nat.testBit_land]
    cases hx : x.testBit i <;> cases hb : a.testBit i <;>
      cases hc : c.testBit i <;> simp_all

/-- Clearing bits through a 32-bit complemented mask really clears them:
the subsequent masked read is zero. -/
theorem and_compl32_self (x c : Nat) (hc : c < 2 ^ 32) :
    (x &&& compl32 c) &&& c = 0 :=
  Nat.eq_of_testBit_eq fun i => by
    simp only [Nat.testBit_land, Nat.zero_testBit, compl32, Nat.testBit_xor]
    cases hci : c.testBit i
    · simp
    · have hi : i < 32 := by
        by_contra h
        have : c.testBit i = false :=
          Nat.testBit_eq_false_of_lt
            (lt_of_lt_of_le hc (Nat.pow_le_pow_right (by norm_num) (Nat.le_of_not_lt h)))
        simp [this] at hci
      have hF : (0xFFFFFFFF : Nat).testBit i = true := by
        rw [show (0xFFFFFFFF : Nat) = 2 ^ 32 - 1 by norm_num,
          Nat.testBit_two_pow_sub_one]
        simp [hi]
      simp [hF, hci]

/-- Clearing bit 0 through the complemented 32-bit mask really clears it. -/
theorem and1_compl32 (x : Nat) : (x &&& compl32 1) &&& 1 = 0 :=
  and_compl32_self x 1 (by norm_num)

/-! Claim theorems. -/

/-- C1: for every timer-expiration notification handled by TIM7_IRQHandler
(update flag set), the user callback is invoked if and only if the digital
input sample BSP_Button_Read taken at that expiration is nonzero; when the
sample reads deasserted no callback is invoked. -/
theorem tim7_callback_iff_pressed (s : BoardState)
    (h : s.TIM7_SR &&& TIM_SR_UIF ≠ 0) :
    BspAction.invokeCallback ∈ (TIM7_IRQHandler s).2 ↔ BSP_Button_Read s ≠ 0 := by
  by_cases hv : s.GPIOA_IDR &&& 1 = 0 <;>
    simp [TIM7_IRQHandler, BSP_Button_Read, BSP_Button_Callback, BSP_LED_Toggle,
      LEDn, LED_PIN, BUTTON_PIN, h, hv, or_and_absorb, -Nat.and_one_is_mod]

/-- C1 witness: at a concrete expiration state with the button pressed. -/
theorem tim7_callback_iff_pressed_witness :
    uifPressed.TIM7_SR &&& TIM_SR_UIF ≠ 0 ∧
    (BspAction.invokeCallback ∈ (TIM7_IRQHandler uifPressed).2 ↔
      BSP_Button_Read uifPressed ≠ 0) :=
  ⟨by decide, tim7_callback_iff_pressed uifPressed (by decide)⟩

/-- C2: on every timer-expiration notification the EXTI line is
unconditionally unmasked before the input is sampled: the resulting state
has the mask bit set whatever the sample reads, the unmask action precedes
the sample action in the emitted trace, and the handler leaves TIM7's
control register unchanged (no restart), so the machine is back in ARMED. -/
theorem tim7_unmask_before_sample (s : BoardState)
    (h : s.TIM7_SR &&& TIM_SR_UIF ≠ 0) :
    (TIM7_IRQHandler s).1.EXTI_IMR &&& (1 <<< BUTTON_PIN) ≠ 0 ∧
    (∃ l, (TIM7_IRQHandler s).2 =
      BspAction.clearTIM7UIF :: BspAction.unmaskEXTI ::
        BspAction.sampleButton (BSP_Button_Read s) :: l) ∧
    (TIM7_IRQHandler s).1.TIM7_CR1 = s.TIM7_CR1 := by
  by_cases hv : s.GPIOA_IDR &&& 1 = 0 <;>
    simp [TIM7_IRQHandler, BSP_Button_Read, BSP_Button_Callback, BSP_LED_Toggle,
      LEDn, LED_PIN, BUTTON_PIN, h, hv, or_and_absorb, -Nat.and_one_is_mod]

/-- C2 witness: at a concrete expiration state with the button pressed. -/
theorem tim7_unmask_before_sample_witness :
    uifPressed.TIM7_SR &&& TIM_SR_UIF ≠ 0 ∧
    ((TIM7_IRQHandler uifPressed).1.EXTI_IMR &&& (1 <<< BUTTON_PIN) ≠ 0 ∧
     (∃ l, (TIM7_IRQHandler uifPressed).2 =
       BspAction.clearTIM7UIF :: BspAction.unmaskEXTI ::
         BspAction.sampleButton (BSP_Button_Read uifPressed) :: l) ∧
     (TIM7_IRQHandler uifPressed).1.TIM7_CR1 = uifPressed.TIM7_CR1) :=
  ⟨by decide, tim7_unmask_before_sample uifPressed (by decide)⟩

/-- C3 counterexample: after BSP_Button_Init(BUTTON_MODE_EXTI) from the
configured startup state, TIM7 can NOT preempt EXTI0 — the claim that TIM7
is configured with strictly higher preemption priority is false: TIM7 gets
preempt value 0x0F and EXTI0 gets 0x0E, and on Cortex-M a numerically
greater value is a LOWER preemption priority. -/
theorem tim7_cannot_preempt_exti0_cex :
    ¬ canPreempt (NVIC_GetPriorityGrouping armedStart)
      armedStart.NVIC_PRIO_TIM7 armedStart.NVIC_PRIO_EXTI0 := by decide

/-- C3 (amended): after System_Init and BSP_Button_Init(BUTTON_MODE_EXTI),
EXTI0 holds encoded priority 14 (preempt 0x0E) and TIM7 holds 15 (preempt
0x0F); under the configured grouping the edge-trigger handler EXTI0 can
preempt the timer handler TIM7, and TIM7 can never preempt EXTI0. -/
theorem exti0_priority_higher_than_tim7 (s : BoardState) :
    (buttonInitEXTI (System_Init s)).NVIC_PRIO_EXTI0 = 14 ∧
    (buttonInitEXTI (System_Init s)).NVIC_PRIO_TIM7 = 15 ∧
    ¬ canPreempt (NVIC_GetPriorityGrouping (buttonInitEXTI (System_Init s)))
        (buttonInitEXTI (System_Init s)).NVIC_PRIO_TIM7
        (buttonInitEXTI (System_Init s)).NVIC_PRIO_EXTI0 ∧
    canPreempt (NVIC_GetPriorityGrouping (buttonInitEXTI (System_Init s)))
        (buttonInitEXTI (System_Init s)).NVIC_PRIO_EXTI0
        (buttonInitEXTI (System_Init s)).NVIC_PRIO_TIM7 := by
  simp only [buttonInitEXTI, BSP_Button_GPIO_Init, BSP_Button_EXTI_Init,
    BSP_Button_NVIC_Init, BSP_Button_DebounceTimer_Init, System_Init,
    NVIC_GetPriorityGrouping]
  decide

/-- C4 counterexample: a reachable run — init, accepted edge, second edge
during the masked debounce window, timer expiration — in which the re-arm
step of TIM7_IRQHandler unmasks the line while the stale pending indication
is still set, performing no acknowledge; the handler leaves the line
unmasked with pending set (an immediate spurious re-notification). -/
theorem rearm_with_stale_pending_cex :
    staleExpired.TIM7_SR &&& TIM_SR_UIF ≠ 0 ∧
    staleExpired.EXTI_PR &&& (1 <<< BUTTON_PIN) ≠ 0 ∧
    BspAction.unmaskEXTI ∈ (TIM7_IRQHandler staleExpired).2 ∧
    BspAction.ackEXTIPending ∉ (TIM7_IRQHandler staleExpired).2 ∧
    (TIM7_IRQHandler staleExpired).1.EXTI_IMR &&& (1 <<< BUTTON_PIN) ≠ 0 ∧
    (TIM7_IRQHandler staleExpired).1.EXTI_PR &&& (1 <<< BUTTON_PIN) ≠ 0 := by
  decide

/-- C4 (amended): the edge-notification handler acknowledges the pending
indication before masking the line, but the timer-expiration re-arm
performs no acknowledge at all and leaves the pending register unchanged,
so a pending indication set during the masked window is still set when the
line is re-enabled. -/
theorem tim7_rearm_no_acknowledge (s : BoardState) :
    (s.TIM7_SR &&& TIM_SR_UIF ≠ 0 →
      BspAction.ackEXTIPending ∉ (TIM7_IRQHandler s).2 ∧
      (TIM7_IRQHandler s).1.EXTI_PR = s.EXTI_PR) ∧
    (s.EXTI_PR &&& (1 <<< BUTTON_PIN) ≠ 0 →
      ∃ l, (EXTI0_IRQHandler s).2 =
        BspAction.ackEXTIPending :: BspAction.maskEXTI :: l) := by
  constructor
  · intro h
    by_cases hv : s.GPIOA_IDR &&& 1 = 0 <;>
      simp [TIM7_IRQHandler, BSP_Button_Read, BSP_Button_Callback, BSP_LED_Toggle,
        LEDn, LED_PIN, BUTTON_PIN, h, hv, -Nat.and_one_is_mod]
  · intro h
    simp only [BUTTON_PIN, Nat.shiftLeft_zero] at h
    simp [EXTI0_IRQHandler, BUTTON_PIN, h, -Nat.and_one_is_mod]

/-- C4 witness: at a concrete state with both the update flag and a stale
pending indication set. -/
theorem tim7_rearm_no_acknowledge_witness :
    uifStalePending.TIM7_SR &&& TIM_SR_UIF ≠ 0 ∧
    (BspAction.ackEXTIPending ∉ (TIM7_IRQHandler uifStalePending).2 ∧
      (TIM7_IRQHandler uifStalePending).1.EXTI_PR = uifStalePending.EXTI_PR) ∧
    uifStalePending.EXTI_PR &&& (1 <<< BUTTON_PIN) ≠ 0 ∧
    (∃ l, (EXTI0_IRQHandler uifStalePending).2 =
      BspAction.ackEXTIPending :: BspAction.maskEXTI :: l) :=
  ⟨by decide, (tim7_rearm_no_acknowledge uifStalePending).1 (by decide),
    by decide, (tim7_rearm_no_acknowledge uifStalePending).2 (by decide)⟩

/-- C5: on an edge notification received with the pending bit set,
EXTI0_IRQHandler performs, in source order, acknowledge then mask then
counter reset then timer start, and leaves the machine in DEBOUNCING:
pending cleared, line masked, TIM7 running from 0. -/
theorem exti0_ack_then_mask_then_start (s : BoardState)
    (h : s.EXTI_PR &&& (1 <<< BUTTON_PIN) ≠ 0) :
    (EXTI0_IRQHandler s).2 =
      [BspAction.ackEXTIPending, BspAction.maskEXTI,
        BspAction.resetTIM7Count, BspAction.startTIM7] ∧
    (EXTI0_IRQHandler s).1.EXTI_PR &&& (1 <<< BUTTON_PIN) = 0 ∧
    (EXTI0_IRQHandler s).1.EXTI_IMR &&& (1 <<< BUTTON_PIN) = 0 ∧
    (EXTI0_IRQHandler s).1.TIM7_CR1 &&& TIM_CR1_CEN ≠ 0 ∧
    (EXTI0_IRQHandler s).1.TIM7_CNT = 0 := by
  simp only [BUTTON_PIN, Nat.shiftLeft_zero] at h
  simp [EXTI0_IRQHandler, BUTTON_PIN, TIM_CR1_CEN, h, or_and_absorb,
    and1_compl32, -Nat.and_one_is_mod]

/-- C5 witness: at a concrete armed state with the pending bit set. -/
theorem exti0_ack_then_mask_then_start_witness :
    pendingArmed.EXTI_PR &&& (1 <<< BUTTON_PIN) ≠ 0 ∧
    ((EXTI0_IRQHandler pendingArmed).2 =
      [BspAction.ackEXTIPending, BspAction.maskEXTI,
        BspAction.resetTIM7Count, BspAction.startTIM7] ∧
     (EXTI0_IRQHandler pendingArmed).1.EXTI_PR &&& (1 <<< BUTTON_PIN) = 0 ∧
     (EXTI0_IRQHandler pendingArmed).1.EXTI_IMR &&& (1 <<< BUTTON_PIN) = 0 ∧
     (EXTI0_IRQHandler pendingArmed).1.TIM7_CR1 &&& TIM_CR1_CEN ≠ 0 ∧
     (EXTI0_IRQHandler pendingArmed).1.TIM7_CNT = 0) :=
  ⟨by decide, exti0_ack_then_mask_then_start pendingArmed (by decide)⟩

/-- C6: an accepted edge (pending bit set) starts exactly one timer run and
masks the line, an immediately repeated handler invocation on the resulting
state has no effect, and any edge notification with the pending bit clear
(line already masked and acknowledged) leaves all observable state
unchanged and emits no action. -/
theorem exti0_single_start_and_masked_ignore (s : BoardState) :
    (s.EXTI_PR &&& (1 <<< BUTTON_PIN) ≠ 0 →
      ((EXTI0_IRQHandler s).2.count BspAction.startTIM7 = 1) ∧
      (EXTI0_IRQHandler s).1.EXTI_IMR &&& (1 <<< BUTTON_PIN) = 0 ∧
      (EXTI0_IRQHandler s).1.TIM7_CR1 &&& TIM_CR1_CEN ≠ 0 ∧
      EXTI0_IRQHandler (EXTI0_IRQHandler s).1 = ((EXTI0_IRQHandler s).1, [])) ∧
    (s.EXTI_PR &&& (1 <<< BUTTON_PIN) = 0 → EXTI0_IRQHandler s = (s, [])) := by
  constructor
  · intro h
    simp only [BUTTON_PIN, Nat.shiftLeft_zero] at h
    simp [EXTI0_IRQHandler, BUTTON_PIN, TIM_CR1_CEN, h, or_and_absorb,
      and1_compl32, -Nat.and_one_is_mod]
  · intro h
    simp only [BUTTON_PIN, Nat.shiftLeft_zero] at h
    simp [EXTI0_IRQHandler, BUTTON_PIN, h, -Nat.and_one_is_mod]

/-- C6 witness: accepted edge at a concrete pending state; ignored edge at
the reset state whose pending bit is clear. -/
theorem exti0_single_start_and_masked_ignore_witness :
    pendingArmed.EXTI_PR &&& (1 <<< BUTTON_PIN) ≠ 0 ∧
    (((EXTI0_IRQHandler pendingArmed).2.count BspAction.startTIM7 = 1) ∧
      (EXTI0_IRQHandler pendingArmed).1.EXTI_IMR &&& (1 <<< BUTTON_PIN) = 0 ∧
      (EXTI0_IRQHandler pendingArmed).1.TIM7_CR1 &&& TIM_CR1_CEN ≠ 0 ∧
      EXTI0_IRQHandler (EXTI0_IRQHandler pendingArmed).1 =
        ((EXTI0_IRQHandler pendingArmed).1, [])) ∧
    resetState.EXTI_PR &&& (1 <<< BUTTON_PIN) = 0 ∧
    EXTI0_IRQHandler resetState = (resetState, []) :=
  ⟨by decide, (exti0_single_start_and_masked_ignore pendingArmed).1 (by decide),
    by decide, (exti0_single_start_and_masked_ignore resetState).2 (by decide)⟩

/-- C7: the debounce timer as configured (PSC = SystemCoreClock/1000 - 1,
ARR = BUTTON_DEBOUNCE_MS = 20, one-pulse mode) delivers exactly one
expiration notification, and it fires 21 ticks after start — not the 20
ticks (20 ms) the claim and the code comments state — because the counter
counts 0..ARR inclusive before the update event; afterwards the timer is
idle (enable bit cleared, further ticks change nothing). -/
theorem debounce_update_on_21st_tick :
    debouncingStart.TIM7_PSC = 168000000 / 1000 - 1 ∧
    debouncingStart.TIM7_ARR = BUTTON_DEBOUNCE_MS ∧
    debouncingStart.TIM7_CNT = 0 ∧
    debouncingStart.TIM7_CR1 &&& TIM_CR1_CEN ≠ 0 ∧
    debouncingStart.TIM7_CR1 &&& TIM_CR1_OPM ≠ 0 ∧
    (tim7Tick^[BUTTON_DEBOUNCE_MS] debouncingStart).TIM7_SR &&& TIM_SR_UIF = 0 ∧
    (tim7Tick^[BUTTON_DEBOUNCE_MS + 1] debouncingStart).TIM7_SR &&& TIM_SR_UIF ≠ 0 ∧
    (tim7Tick^[BUTTON_DEBOUNCE_MS + 1] debouncingStart).TIM7_CR1 &&& TIM_CR1_CEN = 0 ∧
    tim7Tick (tim7Tick^[BUTTON_DEBOUNCE_MS + 1] debouncingStart) =
      tim7Tick^[BUTTON_DEBOUNCE_MS + 1] debouncingStart := by
  decide

/-- C8: configuring the button in EXTI mode twice in succession produces
exactly the same final state as configuring it once, and that state is the
ARMED initial state: interrupt unmasked, rising trigger on, falling trigger
off, pending cleared, debounce interval BUTTON_DEBOUNCE_MS, and the timer
still idle when it was idle before. -/
theorem button_init_exti_idempotent (s : BoardState) :
    buttonInitEXTI (buttonInitEXTI s) = buttonInitEXTI s ∧
    BSP_Button_Init 1 s = some (buttonInitEXTI s) ∧
    (buttonInitEXTI s).EXTI_IMR &&& (1 <<< BUTTON_PIN) ≠ 0 ∧
    (buttonInitEXTI s).EXTI_RTSR &&& (1 <<< BUTTON_PIN) ≠ 0 ∧
    (buttonInitEXTI s).EXTI_FTSR &&& (1 <<< BUTTON_PIN) = 0 ∧
    (buttonInitEXTI s).EXTI_PR &&& (1 <<< BUTTON_PIN) = 0 ∧
    (buttonInitEXTI s).TIM7_ARR = BUTTON_DEBOUNCE_MS ∧
    (s.TIM7_CR1 &&& TIM_CR1_CEN = 0 →
      (buttonInitEXTI s).TIM7_CR1 &&& TIM_CR1_CEN = 0) := by
  refine ⟨?_, rfl, ?_, ?_, ?_, ?_, rfl, ?_⟩
  · simp [buttonInitEXTI, BSP_Button_GPIO_Init, BSP_Button_EXTI_Init,
      BSP_Button_NVIC_Init, BSP_Button_DebounceTimer_Init, NVIC_GetPriorityGrouping,
      or_or_self, and_and_self, clear_set_idem]
  · simp [buttonInitEXTI, BSP_Button_GPIO_Init, BSP_Button_EXTI_Init,
      BSP_Button_NVIC_Init, BSP_Button_DebounceTimer_Init, BUTTON_PIN,
      or_and_absorb, -Nat.and_one_is_mod]
  · simp [buttonInitEXTI, BSP_Button_GPIO_Init, BSP_Button_EXTI_Init,
      BSP_Button_NVIC_Init, BSP_Button_DebounceTimer_Init, BUTTON_PIN,
      or_and_absorb, -Nat.and_one_is_mod]
  · simp [buttonInitEXTI, BSP_Button_GPIO_Init, BSP_Button_EXTI_Init,
      BSP_Button_NVIC_Init, BSP_Button_DebounceTimer_Init, BUTTON_PIN,
      and1_compl32, -Nat.and_one_is_mod]
  · simp [buttonInitEXTI, BSP_Button_GPIO_Init, BSP_Button_EXTI_Init,
      BSP_Button_NVIC_Init, BSP_Button_DebounceTimer_Init, BUTTON_PIN,
      and1_compl32, -Nat.and_one_is_mod]
  · intro h
    simp only [buttonInitEXTI, BSP_Button_GPIO_Init, BSP_Button_EXTI_Init,
      BSP_Button_NVIC_Init, BSP_Button_DebounceTimer_Init, TIM_CR1_OPM, TIM_CR1_CEN]
    rw [or_and_eq_of_and_eq_zero _ 8 1 (by norm_num)]
    exact h

/-- C8 witness: from the reset state, whose timer is idle. -/
theorem button_init_exti_idempotent_witness :
    resetState.TIM7_CR1 &&& TIM_CR1_CEN = 0 ∧
    (buttonInitEXTI resetState).TIM7_CR1 &&& TIM_CR1_CEN = 0 :=
  ⟨by decide, (button_init_exti_idempotent resetState).2.2.2.2.2.2.2 (by decide)⟩

/-- C9: BSP_Button_Init halts on a failed assertion exactly for the mode
arguments other than BUTTON_MODE_GPIO (0) and BUTTON_MODE_EXTI (1); for the
two supported modes it returns normally. -/
theorem bsp_button_init_none_iff_invalid (Mode : Nat) (s : BoardState) :
    BSP_Button_Init Mode s = none ↔ ¬(Mode = 0 ∨ Mode = 1) := by
  rcases Mode with _ | _ | n <;> simp [BSP_Button_Init]

/-- C10: for every LED index not below LEDn, BSP_LED_On, BSP_LED_Off and
BSP_LED_Toggle leave the whole board state unchanged; and whenever the
guard admits an index, that index is within the LED_PIN lookup table. -/
theorem led_out_of_range_is_noop (led : Nat) (s : BoardState) :
    (LEDn ≤ led → BSP_LED_On led s = s ∧ BSP_LED_Off led s = s ∧
      BSP_LED_Toggle led s = s) ∧
    (led < LEDn → led < LED_PIN.length) := by
  constructor
  · intro h
    have hn : ¬ led < LEDn := Nat.not_lt.mpr h
    simp [BSP_LED_On, BSP_LED_Off, BSP_LED_Toggle, hn]
  · intro h
    simpa [LED_PIN, LEDn] using h

/-- C10 witness: index 4 is out of range and a no-op; index 3 is admitted
by the guard and within the table. -/
theorem led_out_of_range_is_noop_witness :
    LEDn ≤ 4 ∧
    (BSP_LED_On 4 resetState = resetState ∧ BSP_LED_Off 4 resetState = resetState ∧
      BSP_LED_Toggle 4 resetState = resetState) ∧
    (3 : Nat) < LEDn ∧ (3 : Nat) < LED_PIN.length :=
  ⟨by decide, (led_out_of_range_is_noop 4 resetState).1 (by decide),
    by decide, (led_out_of_range_is_noop 3 resetState).2 (by decide)⟩
